import Mathlib

set_option maxRecDepth 8000

-- Shallow embedding of desietc/etc.py (class ETC), the exposure-time-control
-- pipeline orchestration layer.  Python floats are modelled as exact
-- rationals, numpy 2-d arrays as lists of lists, Python dicts as
-- insertion-ordered association lists, and the external collaborators
-- (desietc.gfa, desietc.gmm, desietc.sky, desietc.util) as an explicit
-- record of oracle functions.  Python exceptions that etc.py itself can
-- raise on the modelled control paths are made explicit in return types.

namespace Desietc

-- A 2-d numpy array of floats (an image plane or an inverse-variance plane).
abbrev Image := List (List ℚ)

-- Parameter vector of a fitted Gaussian mixture model.  etc.py never looks
-- inside it; it only passes it back to the GMM collaborator.
abbrev GmmParams := List ℚ

-- Elementwise subtraction of two images (numpy broadcasting of `-=` on
-- arrays of equal shape).
def imgSub (a b : Image) : Image :=
  List.zipWith (fun ra rb => List.zipWith (fun x y => x - y) ra rb) a b

-- `T[S, S]` where `S = slice(ntrim, ntrim + size)` (etc.py lines 85-87).
def trim (img : Image) (ntrim size : Nat) : Image :=
  ((img.drop ntrim).take size).map (fun r => (r.drop ntrim).take size)

-- numpy.round: round half to even, as used at etc.py line 144.
def npRound (q : ℚ) : Int :=
  let f := ⌊q⌋
  let r := q - (f : ℚ)
  if r < 1/2 then f
  else if 1/2 < r then f + 1
  else if f % 2 = 0 then f else f + 1

-- Lookup in a Python dict modelled as an insertion-ordered association list.
def dget {α : Type} (d : List (String × α)) (k : String) : Option α :=
  match d with
  | [] => none
  | (k', v) :: rest => if k' = k then some v else dget rest k

-- The GFA exposure header fields read by preprocess_gfa.  `none` models a
-- key that `hdr.get(..., None)` resolves to None.
structure GFAHeader where
  mjd_obs : Option ℚ
  exptime : Option ℚ
  gccdtemp : Option ℚ
  deriving Repr, DecidableEq

-- One camera's entry in an acquisition or guide-frame payload:
-- data[camera] = {'header': ..., 'data': raw image}.
structure CameraData where
  header : GFAHeader
  raw : Image
  deriving Repr, DecidableEq

-- An acquisition or guide-frame payload: data['header'] carries NIGHT and
-- EXPID; the per-camera entries are keyed by camera name.
structure ExpPayload where
  night : Int
  expid : Int
  cameras : List (String × CameraData)
  deriving Repr, DecidableEq

-- One registered guide star (the dict built at etc.py lines 155-158).
-- The slice objects are modelled by their (lo, hi) bounds.  The `fiber`
-- field is the output of the external desietc.util.make_template, fully
-- determined by (psf_pixels, fiber_dx, fiber_dy) and never inspected by
-- etc.py on any modelled path, so it is not carried here.
structure GuideStar where
  x0 : ℚ
  y0 : ℚ
  rmag : ℚ
  -- Faithful to source line 142: this is `10 ** (-(mag[sel] - zeropoint) / 2.5)`,
  -- a vector over ALL stars selected for this camera, not a per-star scalar.
  nelec_rate : List ℚ
  fiber_dx : ℚ
  fiber_dy : ℚ
  ylo : Int
  yhi : Int
  xlo : Int
  xhi : Int
  deriving Repr, DecidableEq

-- One camera's acquisition result dict (etc.py lines 69-101).  The 'data'
-- and 'ivar' keys are always present once the entry is stored; 'gmm',
-- 'model' and 'dithered' are present only when the GMM fit succeeded,
-- which is modelled by the Option fields being `some`.
structure CameraResult where
  data : Image
  ivar : Image
  gmm : Option GmmParams
  model : Option Image
  dithered : Option (List Image)
  deriving Repr, DecidableEq

-- The mutable attributes of an ETC instance.  guide_names, nampx, nampy
-- live on the GFACamera collaborator but are constants for a session.
-- `num_guide_frames = none` models the attribute not existing yet (it is
-- first assigned in process_acquisition, not in __init__), so reading it
-- then raises AttributeError.  gfa_mjd_obs / gfa_exptime / gfa_data hold
-- the values written by the latest preprocess_gfa call.
structure ETCState where
  psf_pixels : Int
  guide_names : List String
  nampx : Int
  nampy : Int
  acquisition_results : Option (List (String × CameraResult))
  guide_stars : Option (List (String × List GuideStar))
  num_guide_frames : Option Nat
  night : Option Int
  expid : Option Int
  gfa_mjd_obs : Option ℚ
  gfa_exptime : Option ℚ
  gfa_data : Option Image
  deriving Repr, DecidableEq

-- Python exceptions that etc.py's own code can raise on the modelled paths.
inductive PyExc where
  | attributeError (name : String)
  | nameError (name : String)
  | assertionError
  deriving Repr, DecidableEq

-- Outcome of process_guide_frame: a normal `return b` or an escaping
-- exception; either carries the instance state at that moment.
inductive GuideResult where
  | ret (b : Bool) (s : ETCState)
  | exc (e : PyExc) (s : ETCState)
  deriving Repr, DecidableEq

-- The external collaborators, as oracle functions (out of scope of this
-- core, specified only at their interface):
--   setraw:           GFACamera.setraw; `none` models the ValueError caught
--                     at etc.py lines 246-250,
--   get_dark_current: GFACamera.get_dark_current(ccdtemp, exptime),
--   psf_stack:        GFA.get_psfs(); GFA.psf_stack read as (T, WT), with
--                     `none` for T is None,
--   gmm_fit:          GMMFit.fit(T, WT, maxgauss=3), `none` on fit failure,
--   gmm_predict:      GMMFit.predict(params),
--   gmm_dither:       GMMFit.dither(params, xdither, ydither),
--   fit_dithered:     GMMFit.fit_dithered(xdither, ydither, dithered, D, W)
--                     returning (dx, dy, flux, bg, nll, best_fit); the
--                     xdither/ydither arguments, fixed at construction by
--                     desietc.util.diskgrid, are folded into the oracle.
structure Ext where
  setraw : String → Image → Option Image
  get_dark_current : ℚ → ℚ → Image
  psf_stack : Image → Option (Image × Image)
  gmm_fit : Image → Image → Option GmmParams
  gmm_predict : GmmParams → Image
  gmm_dither : GmmParams → List Image
  fit_dithered : List Image → Image → Image → ℚ × ℚ × ℚ × ℚ × ℚ × Image

-- ETC.__init__ (etc.py lines 27-56).  The SKY/GFA/GMM collaborators and the
-- dither disk grid are built by externals; the one piece of validation in
-- etc.py itself is the psf_pixels parity check (lines 48-49), which raises
-- ValueError('psf_pixels must be odd.') for even stamp sizes.
def ETC_init (guide_names : List String) (nampx nampy : Int) (psf_pixels : Int) :
    Except String ETCState :=
  if psf_pixels % 2 = 0 then .error "psf_pixels must be odd."
  else .ok {
    psf_pixels := psf_pixels
    guide_names := guide_names
    nampx := nampx
    nampy := nampy
    acquisition_results := none
    guide_stars := none
    num_guide_frames := none
    night := none
    expid := none
    gfa_mjd_obs := none
    gfa_exptime := none
    gfa_data := none }

-- ETC.preprocess_gfa (etc.py lines 226-252).  Returns the Python return
-- value together with the updated instance state.  The default_ccdtemp
-- parameter (default 10) is inlined as the literal 10.  The ValueError
-- that GFA.setraw may raise is caught (lines 246-250) and modelled by the
-- setraw oracle returning `none`.
def preprocess_gfa (ext : Ext) (s : ETCState) (camera : String) (d : CameraData) :
    Bool × ETCState :=
  let s1 := { s with gfa_mjd_obs := d.header.mjd_obs }
  match d.header.mjd_obs with
  | none => (false, s1)
  | some m =>
    if m < 58484 then (false, s1)
    else
      let s2 := { s1 with gfa_exptime := d.header.exptime }
      match d.header.exptime with
      | none => (false, s2)
      | some t =>
        if t ≤ 0 then (false, s2)
        else
          let ccdtemp := d.header.gccdtemp.getD 10
          match ext.setraw camera d.raw with
          | none => (false, s2)
          | some img =>
            (true, { s2 with
              gfa_data := some (imgSub img (ext.get_dark_current ccdtemp t)) })

-- The Bool outcome of preprocess_gfa, which depends only on the camera
-- payload and the external collaborators, never on the incoming state.
def preprocess_ok (ext : Ext) (camera : String) (d : CameraData) : Bool :=
  match d.header.mjd_obs with
  | none => false
  | some m =>
    if m < 58484 then false
    else
      match d.header.exptime with
      | none => false
      | some t =>
        if t ≤ 0 then false
        else (ext.setraw camera d.raw).isSome

-- The corrected image that a successful preprocess_gfa stores in GFA.data.
def gfa_corrected (ext : Ext) (camera : String) (d : CameraData) : Image :=
  imgSub ((ext.setraw camera d.raw).getD [])
    (ext.get_dark_current (d.header.gccdtemp.getD 10) (d.header.exptime.getD 0))

-- The two assert statements at etc.py lines 83-84:
-- `assert T.shape == WT.shape == (nT, nT)` with `nT = len(T)`, and
-- `assert self.psf_pixels <= nT`.
def assertHolds (psf_pixels : Int) (T WT : Image) : Prop :=
  (WT.length = T.length ∧ (∀ r ∈ T, r.length = T.length) ∧
    (∀ r ∈ WT, r.length = T.length)) ∧ psf_pixels ≤ (T.length : Int)

instance (p : Int) (T WT : Image) : Decidable (assertHolds p T WT) := by
  unfold assertHolds; infer_instance

-- Whether a camera whose image is present in the payload makes it into
-- acquisition_results: preprocessing succeeded and PSF-like objects were
-- found in the preprocessed image (etc.py lines 73-91).
def cameraProcessed (ext : Ext) (camera : String) (d : CameraData) : Bool :=
  preprocess_ok ext camera d && (ext.psf_stack (gfa_corrected ext camera d)).isSome

-- The per-camera loop of process_acquisition (etc.py lines 68-101).  The
-- source stores camera_result into acquisition_results (line 91) before the
-- GMM fit adds the 'gmm'/'model'/'dithered' keys to the same dict object;
-- the final dict contents are identical to inserting the completed record,
-- which is how the entry is built here.  A failed assert escapes as
-- AssertionError, carrying the state at that moment.
def acqLoop (ext : Ext) (payload : ExpPayload) :
    List String → ETCState → Except (PyExc × ETCState) ETCState
  | [], s => .ok s
  | camera :: rest, s =>
    match dget payload.cameras camera with
    | none => acqLoop ext payload rest s
    | some d =>
      match preprocess_gfa ext s camera d with
      | (false, s1) => acqLoop ext payload rest s1
      | (true, s1) =>
        match ext.psf_stack (s1.gfa_data.getD []) with
        | none => acqLoop ext payload rest s1
        | some (T, WT) =>
          if assertHolds s1.psf_pixels T WT then
            let ntrim := (((T.length : Int) - s1.psf_pixels) / 2).toNat
            let sz := s1.psf_pixels.toNat
            let Tt := trim T ntrim sz
            let WTt := trim WT ntrim sz
            let res : CameraResult :=
              match ext.gmm_fit Tt WTt with
              | none =>
                { data := Tt, ivar := WTt, gmm := none, model := none, dithered := none }
              | some p =>
                { data := Tt, ivar := WTt, gmm := some p,
                  model := some (ext.gmm_predict p),
                  dithered := some (ext.gmm_dither p) }
            let newacc := (s1.acquisition_results.getD []) ++ [(camera, res)]
            acqLoop ext payload rest { s1 with acquisition_results := some newacc }
          else .error (.assertionError, s1)

-- ETC.process_acquisition (etc.py lines 58-109): records NIGHT/EXPID,
-- resets acquisition_results to {}, loops over the guide cameras, then
-- resets the guide-frame counter and clears the guide stars (lines 104-106).
def process_acquisition (ext : Ext) (s : ETCState) (payload : ExpPayload) :
    Except (PyExc × ETCState) ETCState :=
  let s1 := { s with night := some payload.night, expid := some payload.expid,
                     acquisition_results := some [] }
  match acqLoop ext payload s1.guide_names s1 with
  | .error e => .error e
  | .ok s2 => .ok { s2 with num_guide_frames := some 0, guide_stars := none }

-- np.where((gfa_loc == camera) & (mag > 0))[0] (etc.py lines 128 and 135).
def selIndices (gfa_loc : List String) (mag : List ℚ) (camera : String) : List Nat :=
  (List.range gfa_loc.length).filter
    (fun i => decide (gfa_loc.getD i "" = camera) && decide (0 < mag.getD i 0))

-- The body of the per-star loop of set_guide_stars (etc.py lines 135-158)
-- for candidate index i, returning `none` when the stamp is skipped for
-- being too close to the border (lines 147-149).  magSel is mag[sel], the
-- magnitudes of all selected stars for this camera; float exponentiation
-- `10 ** e` is modelled by the abstract function pow10 applied to the
-- exact exponent.  The antialiased fiber template (lines 151-154) is
-- rendered by the external util.make_template from (psf_pixels, fiber_dx,
-- fiber_dy) and is not carried in the record.
def mkStar (halfsize ny nx : Int) (zeropoint : ℚ) (pow10 : ℚ → ℚ)
    (col row mag : List ℚ) (magSel : List ℚ) (i : Nat) : Option GuideStar :=
  let x0 := col.getD i 0 - 1/2
  let y0 := row.getD i 0 - 1/2
  let rmag := mag.getD i 0
  let nelec_rate := magSel.map (fun m => pow10 (-(m - zeropoint) / (5/2)))
  let iy := npRound y0
  let ix := npRound x0
  let ylo := iy - halfsize
  let yhi := iy + halfsize + 1
  let xlo := ix - halfsize
  let xhi := ix + halfsize + 1
  if ylo < 0 ∨ yhi > ny ∨ xlo < 0 ∨ xhi > nx then none
  else some {
    x0 := x0, y0 := y0, rmag := rmag, nelec_rate := nelec_rate,
    fiber_dx := x0 - (ix : ℚ), fiber_dy := y0 - (iy : ℚ),
    ylo := ylo, yhi := yhi, xlo := xlo, xhi := xhi }

-- The list `stars` accumulated for one camera (etc.py lines 133-158); the
-- magSel argument of every mkStar call is mag[sel], which the source
-- recomputes to the same value on every loop iteration.
def starsFor (halfsize ny nx : Int) (zeropoint : ℚ) (pow10 : ℚ → ℚ)
    (gfa_loc : List String) (col row mag : List ℚ) (camera : String) :
    List GuideStar :=
  (selIndices gfa_loc mag camera).filterMap
    (mkStar halfsize ny nx zeropoint pow10 col row mag
      ((selIndices gfa_loc mag camera).map (fun i => mag.getD i 0)))

-- The guide_stars dict built by the camera loop (etc.py lines 127-161):
-- a camera gets an entry exactly when it ends up with a nonempty star list.
def buildRegistry (halfsize ny nx : Int) (zeropoint : ℚ) (pow10 : ℚ → ℚ)
    (gfa_loc : List String) (col row mag : List ℚ) (guide_names : List String) :
    List (String × List GuideStar) :=
  guide_names.filterMap (fun camera =>
    if starsFor halfsize ny nx zeropoint pow10 gfa_loc col row mag camera = [] then none
    else some (camera, starsFor halfsize ny nx zeropoint pow10 gfa_loc col row mag camera))

-- ETC.set_guide_stars (etc.py lines 111-169).  Source defaults:
-- zeropoint=27.06, fiber_diam_um=107, pixel_size_um=15.  fiber_diam_um and
-- pixel_size_um only shape the radial profile handed to the external fiber
-- template renderer (lines 121-122, 153-154).  Note ny, nx at line 126 are
-- (2*nampx, 2*nampy): the "xy swap is intentional!" per the source comment.
-- guide_stars is set to {} (line 124) before the loop and keeps that value
-- even when the function returns False at line 164.
def set_guide_stars (s : ETCState) (gfa_loc : List String) (col row mag : List ℚ)
    (zeropoint fiber_diam_um pixel_size_um : ℚ) (pow10 : ℚ → ℚ) :
    Bool × ETCState :=
  match s.acquisition_results with
  | none => (false, s)
  | some _ =>
    let halfsize := s.psf_pixels / 2
    let ny := 2 * s.nampx
    let nx := 2 * s.nampy
    let registry :=
      buildRegistry halfsize ny nx zeropoint pow10 gfa_loc col row mag s.guide_names
    let s1 := { s with guide_stars := some registry }
    if registry = [] then (false, s1) else (true, s1)

-- The per-camera loop of process_guide_frame (etc.py lines 189-216).
-- Two statements in the loop body reference names that are not defined:
--   line 191 calls `loggining.info(...)` (misspelled logging) when a camera
--   with acquisition results has no guide stars, and
--   line 204 reads `GFA.data[...]` where the bare name GFA is unbound (the
--   instance attribute is self.GFA).
-- Either one raises NameError and aborts the whole frame.  Because line 204
-- is the first statement of the per-star loop body, lines 205-216 (DW, the
-- fit_dithered call with the undefined name WD, psf['dithered'] - a
-- KeyError for a camera whose acquisition PSF fit failed -, ffrac and
-- transp) are unreachable; in particular the fit_dithered oracle is never
-- applied.
def guideCameraLoop (ext : Ext) (stars : List (String × List GuideStar))
    (payload : ExpPayload) :
    List (String × CameraResult) → ETCState → Except (PyExc × ETCState) ETCState
  | [], s => .ok s
  | (camera, _) :: rest, s =>
    match dget stars camera with
    | none => .error (.nameError "loggining", s)
    | some starList =>
      match dget payload.cameras camera with
      | none => guideCameraLoop ext stars payload rest s
      | some d =>
        match preprocess_gfa ext s camera d with
        | (false, s1) => guideCameraLoop ext stars payload rest s1
        | (true, s1) =>
          match starList with
          | [] => guideCameraLoop ext stars payload rest s1
          | _ :: _ => .error (.nameError "GFA", s1)

-- ETC.process_guide_frame (etc.py lines 171-224).  Line 175 reads
-- self.num_guide_frames before the sequencing guards; on an instance on
-- which process_acquisition has never run, that attribute does not exist
-- and the read raises AttributeError.  The NIGHT/EXPID comparisons at
-- lines 183-186 only emit log messages and change nothing, so they are
-- not modelled as branches.
def process_guide_frame (ext : Ext) (s : ETCState) (payload : ExpPayload) :
    GuideResult :=
  match s.num_guide_frames with
  | none => .exc (.attributeError "num_guide_frames") s
  | some fnum =>
    match s.acquisition_results with
    | none => .ret false s
    | some acq =>
      match s.guide_stars with
      | none => .ret false s
      | some stars =>
        match guideCameraLoop ext stars payload acq s with
        | .error (e, s1) => .exc e s1
        | .ok s1 => .ret true { s1 with num_guide_frames := some (fnum + 1) }

-- ### Concrete instantiations of the external collaborators and states,
-- used to evaluate the model on specific inputs.

-- Benign external collaborators: preprocessing always succeeds, the PSF
-- stack is a fixed 1x1 stamp, and the GMM fit always succeeds.
def extW : Ext := {
  setraw := fun _ img => some img
  get_dark_current := fun _ _ => [[1]]
  psf_stack := fun _ => some ([[2]], [[3]])
  gmm_fit := fun _ _ => some [1]
  gmm_predict := fun _ => [[1]]
  gmm_dither := fun _ => [[[1]]]
  fit_dithered := fun _ _ _ => (0, 0, 0, 0, 0, [[0]]) }

-- A well-formed GFA exposure header (MJD after 2019-01-01, positive EXPTIME).
def hdrW : GFAHeader := { mjd_obs := some 59000, exptime := some 5, gccdtemp := some 11 }

def camW : CameraData := { header := hdrW, raw := [[7]] }

-- An acquisition entry for a camera whose PSF stack was found but whose GMM
-- fit returned None: the entry exists (etc.py line 91 stores it before the
-- fit at line 93) but has no 'gmm'/'model'/'dithered' keys.
def resC1 : CameraResult :=
  { data := [[2]], ivar := [[3]], gmm := none, model := none, dithered := none }

-- A registered star whose 25x25 cutout lies inside a 1032x2048 frame.
def starC1 : GuideStar :=
  { x0 := 100, y0 := 50, rmag := 10, nelec_rate := [1]
    fiber_dx := 0, fiber_dy := 0, ylo := 38, yhi := 63, xlo := 88, xhi := 113 }

-- State after an acquisition and a star registration: one camera with an
-- acquisition entry (PSF fit failed, no dithered bank) and one guide star.
def sC1 : ETCState :=
  { psf_pixels := 25, guide_names := ["GUIDE0"], nampx := 516, nampy := 1024
    acquisition_results := some [("GUIDE0", resC1)]
    guide_stars := some [("GUIDE0", [starC1])]
    num_guide_frames := some 0, night := some 20201218, expid := some 68630
    gfa_mjd_obs := none, gfa_exptime := none, gfa_data := none }

def payloadC1 : ExpPayload :=
  { night := 20201218, expid := 68630, cameras := [("GUIDE0", camW)] }

-- State immediately after a (vacuous) successful acquisition: the
-- acquisition dict exists, guide stars are cleared, counter reset.
def sAcqEmpty : ETCState :=
  { psf_pixels := 25, guide_names := ["GUIDE0"], nampx := 516, nampy := 1024
    acquisition_results := some [], guide_stars := none
    num_guide_frames := some 0, night := some 20201218, expid := some 68630
    gfa_mjd_obs := none, gfa_exptime := none, gfa_data := none }

-- State of a freshly constructed ETC instance (the output of ETC_init for
-- psf_pixels = 25): process_acquisition has never run, so the
-- num_guide_frames attribute does not exist yet.
def sFresh : ETCState :=
  { psf_pixels := 25, guide_names := ["GUIDE0"], nampx := 516, nampy := 1024
    acquisition_results := none, guide_stars := none, num_guide_frames := none
    night := none, expid := none, gfa_mjd_obs := none, gfa_exptime := none
    gfa_data := none }

-- The star that set_guide_stars registers for catalog entry
-- (GUIDE0, col=100.5, row=50.5, mag=10) with zeropoint 27.06 and the
-- identity as the model of 10**e: position (100, 50), exponent vector
-- [6.824] = [853/125], cutout rows 38..63 and columns 88..113.
def starW8 : GuideStar :=
  { x0 := 100, y0 := 50, rmag := 10, nelec_rate := [853/125]
    fiber_dx := 0, fiber_dy := 0, ylo := 38, yhi := 63, xlo := 88, xhi := 113 }

def regW8 : List (String × List GuideStar) := [("GUIDE0", [starW8])]

-- Fresh three-camera instance with psf_pixels = 1 (odd), matching the 1x1
-- PSF stamps that extW's psf_stack oracle returns.
def sInit3 : ETCState :=
  { psf_pixels := 1, guide_names := ["GUIDE0", "GUIDE1", "GUIDE2"]
    nampx := 516, nampy := 1024
    acquisition_results := none, guide_stars := none, num_guide_frames := none
    night := none, expid := none, gfa_mjd_obs := none, gfa_exptime := none
    gfa_data := none }

-- Acquisition payload in which the GUIDE1 camera image is absent.
def payloadAcq3 : ExpPayload :=
  { night := 20201218, expid := 68630
    cameras := [("GUIDE0", camW), ("GUIDE2", camW)] }

-- ### Helper lemmas about set_guide_stars and its registry.

-- Whatever the Bool outcome, after set_guide_stars runs past its
-- acquisition guard, guide_stars holds exactly the built registry
-- (etc.py line 124 binds it before the loop and line 164 returns False
-- without unbinding it).
theorem set_guide_stars_registry (s : ETCState) (gfa_loc : List String)
    (col row mag : List ℚ) (zeropoint fiber_diam_um pixel_size_um : ℚ)
    (pow10 : ℚ → ℚ) (a : List (String × CameraResult))
    (hacq : s.acquisition_results = some a) :
    (set_guide_stars s gfa_loc col row mag zeropoint fiber_diam_um
        pixel_size_um pow10).2.guide_stars =
      some (buildRegistry (s.psf_pixels / 2) (2 * s.nampx) (2 * s.nampy)
        zeropoint pow10 gfa_loc col row mag s.guide_names) := by
  unfold set_guide_stars
  rw [hacq]
  dsimp only
  split <;> rfl

-- Membership in the built registry forces the entry to be a camera from
-- guide_names with its (nonempty) star list.
theorem mem_buildRegistry {halfsize ny nx : Int} {zeropoint : ℚ} {pow10 : ℚ → ℚ}
    {gfa_loc : List String} {col row mag : List ℚ} {guide_names : List String}
    {c : String} {sts : List GuideStar}
    (h : (c, sts) ∈ buildRegistry halfsize ny nx zeropoint pow10
      gfa_loc col row mag guide_names) :
    c ∈ guide_names ∧
      sts = starsFor halfsize ny nx zeropoint pow10 gfa_loc col row mag c := by
  unfold buildRegistry at h
  rcases List.mem_filterMap.mp h with ⟨camera, hcam, hf⟩
  by_cases he : starsFor halfsize ny nx zeropoint pow10 gfa_loc col row mag camera = []
  · rw [if_pos he] at hf
    exact absurd hf (by simp)
  · rw [if_neg he] at hf
    injection hf with hf2
    obtain ⟨h1, h2⟩ := Prod.mk.injEq .. |>.mp hf2
    subst h1
    exact ⟨hcam, h2.symm⟩

-- Membership in a camera's star list exhibits the catalog index it came
-- from.
theorem mem_starsFor {halfsize ny nx : Int} {zeropoint : ℚ} {pow10 : ℚ → ℚ}
    {gfa_loc : List String} {col row mag : List ℚ} {camera : String}
    {st : GuideStar}
    (h : st ∈ starsFor halfsize ny nx zeropoint pow10 gfa_loc col row mag camera) :
    ∃ i, i ∈ selIndices gfa_loc mag camera ∧
      mkStar halfsize ny nx zeropoint pow10 col row mag
        ((selIndices gfa_loc mag camera).map (fun j => mag.getD j 0)) i = some st := by
  unfold starsFor at h
  exact List.mem_filterMap.mp h

theorem mem_selIndices {gfa_loc : List String} {mag : List ℚ} {camera : String}
    {i : Nat} (h : i ∈ selIndices gfa_loc mag camera) :
    gfa_loc.getD i "" = camera ∧ 0 < mag.getD i 0 := by
  unfold selIndices at h
  have h2 := (List.mem_filter.mp h).2
  simpa using h2

-- A candidate that mkStar accepts is stored with exactly the formulas of
-- etc.py lines 137-158, and its cutout window lies inside [0,ny) x [0,nx).
theorem mkStar_some {halfsize ny nx : Int} {zeropoint : ℚ} {pow10 : ℚ → ℚ}
    {col row mag magSel : List ℚ} {i : Nat} {st : GuideStar}
    (h : mkStar halfsize ny nx zeropoint pow10 col row mag magSel i = some st) :
    st.x0 = col.getD i 0 - 1/2 ∧ st.y0 = row.getD i 0 - 1/2 ∧
    st.rmag = mag.getD i 0 ∧
    st.nelec_rate = magSel.map (fun m => pow10 (-(m - zeropoint) / (5/2))) ∧
    st.fiber_dx = st.x0 - (npRound st.x0 : ℚ) ∧
    st.fiber_dy = st.y0 - (npRound st.y0 : ℚ) ∧
    st.ylo = npRound st.y0 - halfsize ∧ st.yhi = npRound st.y0 + halfsize + 1 ∧
    st.xlo = npRound st.x0 - halfsize ∧ st.xhi = npRound st.x0 + halfsize + 1 ∧
    0 ≤ st.ylo ∧ st.yhi ≤ ny ∧ 0 ≤ st.xlo ∧ st.xhi ≤ nx := by
  unfold mkStar at h
  dsimp only at h
  split at h
  · exact absurd h (by simp)
  · next hguard =>
    push_neg at hguard
    obtain ⟨h1, h2, h3, h4⟩ := hguard
    injection h with h5
    subst h5
    refine ⟨rfl, rfl, rfl, rfl, rfl, rfl, rfl, rfl, rfl, rfl, ?_, ?_, ?_, ?_⟩ <;>
      dsimp only <;> omega

-- ### Remaining claim theorems.

/-- C5: for every input star whose cutout window would extend past any
edge of the full frame, set_guide_stars excludes that star from the
registry it builds (every registered star's stored window satisfies
0 <= ylo, yhi <= ny = 2*nampx, 0 <= xlo, xhi <= nx = 2*nampy, so no
out-of-bounds candidate is ever stored), and the call still returns True
provided at least one star of some camera remains valid.  Confirmed
(etc.py lines 144-149 and 159-169). -/
theorem C5_border_stars_excluded_and_still_true (s : ETCState)
    (gfa_loc : List String) (col row mag : List ℚ)
    (zeropoint fiber_diam_um pixel_size_um : ℚ) (pow10 : ℚ → ℚ)
    (a : List (String × CameraResult))
    (hacq : s.acquisition_results = some a)
    (hvalid : ∃ camera, camera ∈ s.guide_names ∧
      starsFor (s.psf_pixels / 2) (2 * s.nampx) (2 * s.nampy) zeropoint pow10
        gfa_loc col row mag camera ≠ []) :
    (set_guide_stars s gfa_loc col row mag zeropoint fiber_diam_um
        pixel_size_um pow10).1 = true ∧
    ∀ reg, (set_guide_stars s gfa_loc col row mag zeropoint fiber_diam_um
        pixel_size_um pow10).2.guide_stars = some reg →
      ∀ c sts, (c, sts) ∈ reg → ∀ st, st ∈ sts →
        0 ≤ st.ylo ∧ st.yhi ≤ 2 * s.nampx ∧ 0 ≤ st.xlo ∧ st.xhi ≤ 2 * s.nampy := by
  obtain ⟨camera, hmem, hne⟩ := hvalid
  have hentry : (camera, starsFor (s.psf_pixels / 2) (2 * s.nampx) (2 * s.nampy)
      zeropoint pow10 gfa_loc col row mag camera) ∈
      buildRegistry (s.psf_pixels / 2) (2 * s.nampx) (2 * s.nampy)
        zeropoint pow10 gfa_loc col row mag s.guide_names := by
    unfold buildRegistry
    exact List.mem_filterMap.mpr ⟨camera, hmem, by rw [if_neg hne]⟩
  have hregne : buildRegistry (s.psf_pixels / 2) (2 * s.nampx) (2 * s.nampy)
      zeropoint pow10 gfa_loc col row mag s.guide_names ≠ [] := by
    intro h0
    rw [h0] at hentry
    exact absurd hentry (List.not_mem_nil _)
  constructor
  · unfold set_guide_stars
    rw [hacq]
    dsimp only
    rw [if_neg hregne]
  · intro reg hreg c sts hmemreg st hst
    rw [set_guide_stars_registry s gfa_loc col row mag zeropoint fiber_diam_um
      pixel_size_um pow10 a hacq] at hreg
    injection hreg with hreg2
    subst hreg2
    obtain ⟨_, hsts⟩ := mem_buildRegistry hmemreg
    subst hsts
    obtain ⟨i, _, hmk⟩ := mem_starsFor hst
    obtain ⟨_, _, _, _, _, _, _, _, _, _, hb1, hb2, hb3, hb4⟩ := mkStar_some hmk
    exact ⟨hb1, hb2, hb3, hb4⟩

/-- C5 witness: with one in-bounds star (col=100.5, row=50.5) and one star
whose window crosses the left frame edge (col=5.5), registration still
returns True. -/
theorem C5_witness :
    (set_guide_stars sAcqEmpty ["GUIDE0", "GUIDE0"] [201/2, 11/2] [101/2, 101/2]
      [10, 10] (1353/50) 107 15 (fun q => q)).1 = true :=
  (C5_border_stars_excluded_and_still_true sAcqEmpty ["GUIDE0", "GUIDE0"]
    [201/2, 11/2] [101/2, 101/2] [10, 10] (1353/50) 107 15 (fun q => q) []
    (by with_unfolding_all rfl)
    ⟨"GUIDE0", by with_unfolding_all decide, by with_unfolding_all decide⟩).1

/-- C8: every star accepted by set_guide_stars is stored with the 0-based
position (x0, y0) = (col - 0.5, row - 0.5) of some catalog entry selected
for its camera (the conversion applied exactly once at registration), and
its fiber sub-pixel offsets and cutout slice bounds are derived from that
converted position: fiber_dx = x0 - round(x0), fiber_dy = y0 - round(y0),
yslice = (round(y0) - halfsize, round(y0) + halfsize + 1) and likewise for
xslice, with halfsize = psf_pixels // 2 and round = numpy's half-to-even
rounding.  Confirmed (etc.py lines 135-158). -/
theorem C8_position_convention_applied_once (s : ETCState)
    (gfa_loc : List String) (col row mag : List ℚ)
    (zeropoint fiber_diam_um pixel_size_um : ℚ) (pow10 : ℚ → ℚ)
    (a : List (String × CameraResult)) (reg : List (String × List GuideStar))
    (c : String) (sts : List GuideStar) (st : GuideStar)
    (hacq : s.acquisition_results = some a)
    (hreg : (set_guide_stars s gfa_loc col row mag zeropoint fiber_diam_um
        pixel_size_um pow10).2.guide_stars = some reg)
    (hc : (c, sts) ∈ reg) (hst : st ∈ sts) :
    ∃ i, gfa_loc.getD i "" = c ∧ 0 < mag.getD i 0 ∧
      st.x0 = col.getD i 0 - 1/2 ∧ st.y0 = row.getD i 0 - 1/2 ∧
      st.rmag = mag.getD i 0 ∧
      st.fiber_dx = st.x0 - (npRound st.x0 : ℚ) ∧
      st.fiber_dy = st.y0 - (npRound st.y0 : ℚ) ∧
      st.ylo = npRound st.y0 - s.psf_pixels / 2 ∧
      st.yhi = npRound st.y0 + s.psf_pixels / 2 + 1 ∧
      st.xlo = npRound st.x0 - s.psf_pixels / 2 ∧
      st.xhi = npRound st.x0 + s.psf_pixels / 2 + 1 := by
  rw [set_guide_stars_registry s gfa_loc col row mag zeropoint fiber_diam_um
    pixel_size_um pow10 a hacq] at hreg
  injection hreg with hreg2
  subst hreg2
  obtain ⟨_, hsts⟩ := mem_buildRegistry hc
  subst hsts
  obtain ⟨i, hisel, hmk⟩ := mem_starsFor hst
  obtain ⟨hloc, hmag⟩ := mem_selIndices hisel
  obtain ⟨e1, e2, e3, _, e5, e6, e7, e8, e9, e10, _, _, _, _⟩ := mkStar_some hmk
  exact ⟨i, hloc, hmag, e1, e2, e3, e5, e6, e7, e8, e9, e10⟩

/-- C8 witness: the single catalog star (GUIDE0, col=100.5, row=50.5,
mag=10) is stored as starW8 with x0 = 100 = 100.5 - 0.5, y0 = 50,
fiber offsets 0 and window rows 38..63, columns 88..113. -/
theorem C8_witness :
    ∃ i, (["GUIDE0"] : List String).getD i "" = "GUIDE0" ∧
      0 < ([10] : List ℚ).getD i 0 ∧
      starW8.x0 = ([201/2] : List ℚ).getD i 0 - 1/2 ∧
      starW8.y0 = ([101/2] : List ℚ).getD i 0 - 1/2 ∧
      starW8.rmag = ([10] : List ℚ).getD i 0 ∧
      starW8.fiber_dx = starW8.x0 - (npRound starW8.x0 : ℚ) ∧
      starW8.fiber_dy = starW8.y0 - (npRound starW8.y0 : ℚ) ∧
      starW8.ylo = npRound starW8.y0 - sAcqEmpty.psf_pixels / 2 ∧
      starW8.yhi = npRound starW8.y0 + sAcqEmpty.psf_pixels / 2 + 1 ∧
      starW8.xlo = npRound starW8.x0 - sAcqEmpty.psf_pixels / 2 ∧
      starW8.xhi = npRound starW8.x0 + sAcqEmpty.psf_pixels / 2 + 1 :=
  C8_position_convention_applied_once sAcqEmpty ["GUIDE0"] [201/2] [101/2] [10]
    (1353/50) 107 15 (fun q => q) [] regW8 "GUIDE0" [starW8] starW8
    (by with_unfolding_all rfl) (by with_unfolding_all decide)
    (by with_unfolding_all decide) (by with_unfolding_all decide)

/-- C10: if set_guide_stars runs after an acquisition but every candidate
star is rejected, it returns False yet leaves guide_stars bound to the
empty dict rather than None (etc.py lines 124 and 162-164); a subsequent
process_guide_frame therefore passes the `self.guide_stars is None` guard
at line 179 and is never rejected as out of sequence (its outcome is never
`return False`).  Confirmed. -/
theorem C10_empty_registry_is_not_None (s : ETCState)
    (a : List (String × CameraResult)) (n : Nat)
    (gfa_loc : List String) (col row mag : List ℚ)
    (zeropoint fiber_diam_um pixel_size_um : ℚ) (pow10 : ℚ → ℚ)
    (hacq : s.acquisition_results = some a) (hn : s.num_guide_frames = some n)
    (hempty : buildRegistry (s.psf_pixels / 2) (2 * s.nampx) (2 * s.nampy)
      zeropoint pow10 gfa_loc col row mag s.guide_names = []) :
    (set_guide_stars s gfa_loc col row mag zeropoint fiber_diam_um
        pixel_size_um pow10).1 = false ∧
    (set_guide_stars s gfa_loc col row mag zeropoint fiber_diam_um
        pixel_size_um pow10).2.guide_stars = some [] ∧
    ∀ (ext : Ext) (payload : ExpPayload) (s'' : ETCState),
      process_guide_frame ext
        (set_guide_stars s gfa_loc col row mag zeropoint fiber_diam_um
          pixel_size_um pow10).2 payload ≠ .ret false s'' := by
  have hset : set_guide_stars s gfa_loc col row mag zeropoint fiber_diam_um
      pixel_size_um pow10 = (false, { s with guide_stars := some [] }) := by
    unfold set_guide_stars
    rw [hacq]
    dsimp only
    rw [hempty]
    simp
  refine ⟨by rw [hset], by rw [hset], ?_⟩
  intro ext payload s'' hcontr
  rw [hset] at hcontr
  unfold process_guide_frame at hcontr
  dsimp only at hcontr
  rw [hn, hacq] at hcontr
  dsimp only at hcontr
  split at hcontr
  · exact absurd hcontr (by simp)
  · exact absurd hcontr (by simp)

/-- C10 witness: with a single catalog star of non-positive magnitude the
registry comes out empty and set_guide_stars returns False. -/
theorem C10_witness :
    (set_guide_stars sAcqEmpty ["GUIDE0"] [201/2] [101/2] [-1] (1353/50) 107 15
      (fun q => q)).1 = false :=
  (C10_empty_registry_is_not_None sAcqEmpty [] 0 ["GUIDE0"] [201/2] [101/2] [-1]
    (1353/50) 107 15 (fun q => q) (by with_unfolding_all rfl)
    (by with_unfolding_all rfl) (by with_unfolding_all decide)).1

-- ### Helper lemmas about preprocess_gfa and the acquisition loop.

-- The Bool returned by preprocess_gfa does not depend on the incoming
-- state.
theorem preprocess_gfa_fst (ext : Ext) (s : ETCState) (camera : String)
    (d : CameraData) :
    (preprocess_gfa ext s camera d).1 = preprocess_ok ext camera d := by
  unfold preprocess_gfa preprocess_ok
  cases d.header.mjd_obs with
  | none => rfl
  | some m =>
    dsimp only
    by_cases hm : m < 58484
    · simp only [if_pos hm]
    · simp only [if_neg hm]
      cases d.header.exptime with
      | none => rfl
      | some t =>
        dsimp only
        by_cases ht : t ≤ 0
        · simp only [if_pos ht]
        · simp only [if_neg ht]
          cases ext.setraw camera d.raw with
          | none => rfl
          | some img => rfl

-- preprocess_gfa only writes the gfa_* attributes; all pipeline state it
-- returns is the caller's.
theorem preprocess_gfa_preserves (ext : Ext) (s : ETCState) (camera : String)
    (d : CameraData) :
    (preprocess_gfa ext s camera d).2.psf_pixels = s.psf_pixels ∧
    (preprocess_gfa ext s camera d).2.guide_names = s.guide_names ∧
    (preprocess_gfa ext s camera d).2.nampx = s.nampx ∧
    (preprocess_gfa ext s camera d).2.nampy = s.nampy ∧
    (preprocess_gfa ext s camera d).2.acquisition_results = s.acquisition_results ∧
    (preprocess_gfa ext s camera d).2.guide_stars = s.guide_stars ∧
    (preprocess_gfa ext s camera d).2.num_guide_frames = s.num_guide_frames := by
  unfold preprocess_gfa
  repeat' split
  all_goals exact ⟨rfl, rfl, rfl, rfl, rfl, rfl, rfl⟩

-- After a successful preprocess_gfa, GFA.data holds the corrected image,
-- a value independent of the incoming state.
theorem preprocess_gfa_data (ext : Ext) (s : ETCState) (camera : String)
    (d : CameraData) (h : preprocess_ok ext camera d = true) :
    (preprocess_gfa ext s camera d).2.gfa_data = some (gfa_corrected ext camera d) := by
  unfold preprocess_ok at h
  unfold preprocess_gfa gfa_corrected
  cases hm : d.header.mjd_obs with
  | none => rw [hm] at h; exact absurd h (by simp)
  | some m =>
    rw [hm] at h
    dsimp only at h ⊢
    by_cases hlt : m < 58484
    · rw [if_pos hlt] at h; exact absurd h (by simp)
    · rw [if_neg hlt] at h
      rw [if_neg hlt]
      cases ht : d.header.exptime with
      | none => rw [ht] at h; exact absurd h (by simp)
      | some t =>
        rw [ht] at h
        dsimp only at h ⊢
        by_cases htle : t ≤ 0
        · rw [if_pos htle] at h; exact absurd h (by simp)
        · rw [if_neg htle] at h
          rw [if_neg htle]
          cases hsr : ext.setraw camera d.raw with
          | none => rw [hsr] at h; exact absurd h (by simp)
          | some img =>
            rfl

theorem dget_append_isSome {α : Type} (m : List (String × α)) (camera : String)
    (r : α) (c : String) :
    ((dget (m ++ [(camera, r)]) c).isSome = true) ↔
      ((dget m c).isSome = true ∨ c = camera) := by
  induction m with
  | nil =>
    by_cases h : camera = c
    · simp [dget, h]
    · simp [dget, h]
      exact fun hc => h hc.symm
  | cons hd tl ih =>
    obtain ⟨k, v⟩ := hd
    by_cases h : k = c
    · simp [dget, h]
    · simp only [List.cons_append, dget, if_neg h]
      exact ih

-- Splicing a new camera into the per-claim presence condition: the case
-- where the head camera contributes no entry.
theorem cond_skip (camera : String) (rest : List String) (A P : String → Prop)
    (hcam : ¬ P camera) (c : String) :
    (A c ∨ (c ∈ rest ∧ P c)) ↔ (A c ∨ (c ∈ camera :: rest ∧ P c)) := by
  constructor
  · rintro (h | ⟨hm, hp⟩)
    · exact Or.inl h
    · exact Or.inr ⟨List.mem_cons_of_mem _ hm, hp⟩
  · rintro (h | ⟨hm, hp⟩)
    · exact Or.inl h
    · rcases List.mem_cons.mp hm with heq | hm'
      · subst heq; exact absurd hp hcam
      · exact Or.inr ⟨hm', hp⟩

-- ... and the case where the head camera does contribute an entry.
theorem cond_add (camera : String) (rest : List String) (A P : String → Prop)
    (hcam : P camera) (c : String) :
    ((A c ∨ c = camera) ∨ (c ∈ rest ∧ P c)) ↔ (A c ∨ (c ∈ camera :: rest ∧ P c)) := by
  constructor
  · rintro ((h | heq) | ⟨hm, hp⟩)
    · exact Or.inl h
    · subst heq; exact Or.inr ⟨List.mem_cons_self _ _, hcam⟩
    · exact Or.inr ⟨List.mem_cons_of_mem _ hm, hp⟩
  · rintro (h | ⟨hm, hp⟩)
    · exact Or.inl (Or.inl h)
    · rcases List.mem_cons.mp hm with heq | hm'
      · exact Or.inl (Or.inr heq)
      · exact Or.inr ⟨hm', hp⟩

-- The acquisition camera loop, run with external collaborators whose PSF
-- stacks satisfy the source's asserts, always terminates normally; it
-- preserves psf_pixels, guide_names, guide_stars and num_guide_frames, and
-- the cameras present in the accumulated dict are exactly those already
-- present plus those with a payload image that preprocesses successfully
-- and yields a PSF stack.
theorem acqLoop_ok_spec (ext : Ext) (payload : ExpPayload) (P : Int)
    (hstack : ∀ img T WT, ext.psf_stack img = some (T, WT) → assertHolds P T WT) :
    ∀ (names : List String) (s : ETCState) (m0 : List (String × CameraResult)),
      s.psf_pixels = P →
      s.acquisition_results = some m0 →
      ∃ s', acqLoop ext payload names s = .ok s' ∧
        s'.psf_pixels = P ∧
        s'.guide_names = s.guide_names ∧
        s'.guide_stars = s.guide_stars ∧
        s'.num_guide_frames = s.num_guide_frames ∧
        ∃ m, s'.acquisition_results = some m ∧
          ∀ c, ((dget m c).isSome = true ↔
            ((dget m0 c).isSome = true ∨
              (c ∈ names ∧ ∃ d, dget payload.cameras c = some d ∧
                cameraProcessed ext c d = true))) := by
  intro names
  induction names with
  | nil =>
    intro s m0 hP hm0
    exact ⟨s, rfl, hP, rfl, rfl, rfl, m0, hm0, fun c => by simp⟩
  | cons camera rest ih =>
    intro s m0 hP hm0
    simp only [acqLoop]
    cases hd : dget payload.cameras camera with
    | none =>
      dsimp only
      obtain ⟨s', hrun, h1, h2, h3, h4, m, hm, hcond⟩ := ih s m0 hP hm0
      refine ⟨s', hrun, h1, h2, h3, h4, m, hm, fun c => ?_⟩
      rw [hcond c]
      refine cond_skip camera rest (fun c => (dget m0 c).isSome = true)
        (fun c => ∃ d, dget payload.cameras c = some d ∧
          cameraProcessed ext c d = true) ?_ c
      rintro ⟨d', hd', _⟩
      rw [hd] at hd'
      exact absurd hd' (by simp)
    | some d =>
      dsimp only
      have hb := preprocess_gfa_fst ext s camera d
      have hpres := preprocess_gfa_preserves ext s camera d
      cases hpre : preprocess_gfa ext s camera d with
      | mk b s1 =>
        rw [hpre] at hb hpres
        dsimp only at hb hpres
        obtain ⟨hq1, hq2, hq3, hq4, hq5, hq6, hq7⟩ := hpres
        cases b with
        | false =>
          dsimp only
          obtain ⟨s', hrun, h1, h2, h3, h4, m, hm, hcond⟩ :=
            ih s1 m0 (hq1.trans hP) (hq5.trans hm0)
          refine ⟨s', hrun, h1, h2.trans hq2, h3.trans hq6, h4.trans hq7,
            m, hm, fun c => ?_⟩
          rw [hcond c]
          refine cond_skip camera rest (fun c => (dget m0 c).isSome = true)
            (fun c => ∃ d, dget payload.cameras c = some d ∧
              cameraProcessed ext c d = true) ?_ c
          rintro ⟨d', hd', hproc⟩
          rw [hd] at hd'
          injection hd' with hd2
          subst hd2
          unfold cameraProcessed at hproc
          rw [← hb] at hproc
          exact absurd hproc (by simp)
        | true =>
          dsimp only
          have hdata : s1.gfa_data = some (gfa_corrected ext camera d) := by
            have h0 := preprocess_gfa_data ext s camera d hb.symm
            rw [hpre] at h0
            exact h0
          rw [hdata]
          simp only [Option.getD_some]
          cases hst : ext.psf_stack (gfa_corrected ext camera d) with
          | none =>
            dsimp only
            obtain ⟨s', hrun, h1, h2, h3, h4, m, hm, hcond⟩ :=
              ih s1 m0 (hq1.trans hP) (hq5.trans hm0)
            refine ⟨s', hrun, h1, h2.trans hq2, h3.trans hq6, h4.trans hq7,
              m, hm, fun c => ?_⟩
            rw [hcond c]
            refine cond_skip camera rest (fun c => (dget m0 c).isSome = true)
              (fun c => ∃ d, dget payload.cameras c = some d ∧
                cameraProcessed ext c d = true) ?_ c
            rintro ⟨d', hd', hproc⟩
            rw [hd] at hd'
            injection hd' with hd2
            subst hd2
            unfold cameraProcessed at hproc
            rw [hst] at hproc
            exact absurd hproc (by simp)
          | some TW =>
            obtain ⟨T, WT⟩ := TW
            have hass : assertHolds s1.psf_pixels T WT := by
              rw [hq1, hP]; exact hstack _ _ _ hst
            dsimp only
            rw [if_pos hass, hq5, hm0]
            simp only [Option.getD_some]
            have hcam : ∃ d0, dget payload.cameras camera = some d0 ∧
                cameraProcessed ext camera d0 = true := by
              refine ⟨d, hd, ?_⟩
              unfold cameraProcessed
              rw [← hb, hst]
              rfl
            cases hfit : ext.gmm_fit (trim T (((T.length : Int) - s1.psf_pixels) / 2).toNat s1.psf_pixels.toNat)
                (trim WT (((T.length : Int) - s1.psf_pixels) / 2).toNat s1.psf_pixels.toNat) with
            | none =>
              dsimp only
              obtain ⟨s', hrun, h1, h2, h3, h4, m, hm, hcond⟩ :=
                ih { { s1 with gfa_data := some (gfa_corrected ext camera d) } with
                      acquisition_results := some (m0 ++ [(camera,
                    { data := trim T (((T.length : Int) - s1.psf_pixels) / 2).toNat s1.psf_pixels.toNat
                      ivar := trim WT (((T.length : Int) - s1.psf_pixels) / 2).toNat s1.psf_pixels.toNat
                      gmm := none, model := none, dithered := none })]) }
                  (m0 ++ [(camera,
                    { data := trim T (((T.length : Int) - s1.psf_pixels) / 2).toNat s1.psf_pixels.toNat
                      ivar := trim WT (((T.length : Int) - s1.psf_pixels) / 2).toNat s1.psf_pixels.toNat
                      gmm := none, model := none, dithered := none })])
                  (hq1.trans hP) rfl
              refine ⟨s', hrun, h1, h2.trans hq2, h3.trans hq6, h4.trans hq7,
                m, hm, fun c => ?_⟩
              rw [hcond c, dget_append_isSome]
              exact cond_add camera rest (fun c => (dget m0 c).isSome = true)
                (fun c => ∃ d, dget payload.cameras c = some d ∧
                  cameraProcessed ext c d = true) hcam c
            | some p =>
              dsimp only
              obtain ⟨s', hrun, h1, h2, h3, h4, m, hm, hcond⟩ :=
                ih { { s1 with gfa_data := some (gfa_corrected ext camera d) } with
                      acquisition_results := some (m0 ++ [(camera,
                    { data := trim T (((T.length : Int) - s1.psf_pixels) / 2).toNat s1.psf_pixels.toNat
                      ivar := trim WT (((T.length : Int) - s1.psf_pixels) / 2).toNat s1.psf_pixels.toNat
                      gmm := some p, model := some (ext.gmm_predict p)
                      dithered := some (ext.gmm_dither p) })]) }
                  (m0 ++ [(camera,
                    { data := trim T (((T.length : Int) - s1.psf_pixels) / 2).toNat s1.psf_pixels.toNat
                      ivar := trim WT (((T.length : Int) - s1.psf_pixels) / 2).toNat s1.psf_pixels.toNat
                      gmm := some p, model := some (ext.gmm_predict p)
                      dithered := some (ext.gmm_dither p) })])
                  (hq1.trans hP) rfl
              refine ⟨s', hrun, h1, h2.trans hq2, h3.trans hq6, h4.trans hq7,
                m, hm, fun c => ?_⟩
              rw [hcond c, dget_append_isSome]
              exact cond_add camera rest (fun c => (dget m0 c).isSome = true)
                (fun c => ∃ d, dget payload.cameras c = some d ∧
                  cameraProcessed ext c d = true) hcam c

-- ### Claim theorems.

/-- C1: the claim states that a failure affecting one camera or one star
(in particular a camera recorded at acquisition without a dithered
rendering bank because its PSF fit returned null) never aborts the
per-frame loop of process_guide_frame, which should record per-star
failures and continue.  The code refutes this: with one registered camera
whose acquisition entry has no dithered bank (resC1.dithered = none) and a
perfectly valid guide frame, the first statement of the per-star loop
(etc.py line 204, `D = GFA.data[...]` with the bare name GFA unbound)
raises NameError and the whole frame processing aborts instead of
recording a per-star failure.  (Had line 204 been reached past, line 208's
`psf['dithered']` would raise KeyError for this camera and line 209's `WD`
a further NameError.)  Hence the claim is a code bug, not a property of
the code. -/
theorem C1_guide_frame_loop_aborts_with_NameError :
    resC1.dithered = none ∧
      ∃ s', process_guide_frame extW sC1 payloadC1 = .exc (.nameError "GFA") s' :=
  ⟨rfl, _, by with_unfolding_all rfl⟩

-- The guideCameraLoop outcome does not depend on the fit_dithered oracle:
-- no control path of the source's per-camera loop reaches the
-- GMM.fit_dithered call at etc.py lines 208-209.
theorem guideCameraLoop_fit_dithered_irrelevant (ext : Ext)
    (f : List Image → Image → Image → ℚ × ℚ × ℚ × ℚ × ℚ × Image)
    (stars : List (String × List GuideStar)) (payload : ExpPayload) :
    ∀ (acq : List (String × CameraResult)) (s : ETCState),
      guideCameraLoop { ext with fit_dithered := f } stars payload acq s =
        guideCameraLoop ext stars payload acq s := by
  intro acq
  induction acq with
  | nil => intro s; rfl
  | cons hd tl ih =>
    intro s
    obtain ⟨camera, r⟩ := hd
    simp only [guideCameraLoop]
    cases dget stars camera with
    | none => rfl
    | some starList =>
      dsimp only
      cases dget payload.cameras camera with
      | none => exact ih s
      | some d =>
        dsimp only
        have hpre : preprocess_gfa { ext with fit_dithered := f } s camera d =
            preprocess_gfa ext s camera d := rfl
        rw [hpre]
        cases preprocess_gfa ext s camera d with
        | mk b s1 =>
          cases b with
          | false => exact ih s1
          | true =>
            dsimp only
            cases starList with
            | nil => exact ih s1
            | cons st rest => rfl

/-- C2: the claim states that for every registered star in every guide
frame, fit_dithered is invoked with exactly that star's extracted cutout D
and that cutout's matching inverse-variance weights.  The code refutes
this: the cutout extraction at etc.py line 204 reads the undefined name
`GFA` (the attribute is self.GFA) and the call at line 209 passes the
undefined name `WD` (the weights were bound as `DW` at line 205), so the
per-star body raises NameError before the fit; GMM.fit_dithered is never
invoked at all.  Formally, the outcome of process_guide_frame is invariant
under arbitrary replacement of the fit_dithered collaborator on every
state and every payload. -/
theorem C2_fit_dithered_never_invoked (ext : Ext)
    (f : List Image → Image → Image → ℚ × ℚ × ℚ × ℚ × ℚ × Image)
    (s : ETCState) (payload : ExpPayload) :
    process_guide_frame { ext with fit_dithered := f } s payload =
      process_guide_frame ext s payload := by
  unfold process_guide_frame
  cases s.num_guide_frames with
  | none => rfl
  | some fnum =>
    dsimp only
    cases s.acquisition_results with
    | none => rfl
    | some acq =>
      dsimp only
      cases s.guide_stars with
      | none => rfl
      | some stars =>
        dsimp only
        rw [guideCameraLoop_fit_dithered_irrelevant]

/-- C3: the claim states that each star's transparency divisor nelec_rate
is the single scalar 10 ** (-(mag_i - zeropoint) / 2.5) derived from that
star's own magnitude.  The code refutes this: etc.py line 142 computes
`10 ** (-(mag[sel] - zeropoint) / 2.5)` from the whole selected-magnitude
array, so every star of a camera stores the same full vector.  Evaluating
set_guide_stars on two stars of one camera with magnitudes 10 and 12
(zeropoint 27.06, float 10**e modelled by the identity on the exponent):
both stars' nelec_rate is the two-element vector of both exponents
[6.824, 6.024], not the scalar for the star's own magnitude. -/
theorem C3_nelec_rate_is_whole_selected_vector :
    ((set_guide_stars sAcqEmpty ["GUIDE0", "GUIDE0"] [201/2, 401/2] [101/2, 121/2]
        [10, 12] (1353/50) 107 15 (fun q => q)).2.guide_stars).map
      (fun reg => reg.map (fun p => (p.1, p.2.map (fun st => st.nelec_rate)))) =
      some [("GUIDE0", [[853/125, 753/125], [853/125, 753/125]])] := by
  with_unfolding_all decide

/-- C4: the claim states that process_guide_frame invoked out of sequence
always fails by returning False with the pipeline state untouched.  The
code refutes the "returns False" half on a freshly constructed instance:
etc.py line 175 reads self.num_guide_frames, an attribute first assigned
only by process_acquisition (line 105), before the sequencing guards at
lines 176-181, so the call raises AttributeError instead of returning
False (the state is indeed left unchanged).  This theorem derives that
behaviour for every state produced by ETC_init. -/
theorem C4_fresh_instance_raises_AttributeError (guide_names : List String)
    (nampx nampy psf_pixels : Int) (s : ETCState) (ext : Ext) (payload : ExpPayload)
    (h : ETC_init guide_names nampx nampy psf_pixels = .ok s) :
    process_guide_frame ext s payload = .exc (.attributeError "num_guide_frames") s := by
  unfold ETC_init at h
  split at h
  · exact absurd h (by simp)
  · injection h with h2
    subst h2
    rfl

/-- C4 witness: a freshly constructed instance with psf_pixels = 25 raises
AttributeError from process_guide_frame and its state is unchanged. -/
theorem C4_witness :
    process_guide_frame extW sFresh payloadC1 =
      .exc (.attributeError "num_guide_frames") sFresh :=
  C4_fresh_instance_raises_AttributeError ["GUIDE0"] 516 1024 25 sFresh extW payloadC1
    (by with_unfolding_all rfl)

/-- C7: ETC construction fails with ValueError('psf_pixels must be odd.')
for every even psf_pixels and does not raise this error for any odd
psf_pixels (etc.py lines 48-49; Python's % on int agrees with Int.emod for
the positive modulus 2). -/
theorem C7_psf_pixels_must_be_odd (guide_names : List String)
    (nampx nampy psf_pixels : Int) :
    (∃ e, ETC_init guide_names nampx nampy psf_pixels = .error e) ↔
      psf_pixels % 2 = 0 := by
  unfold ETC_init
  split
  · next h => simp [h]
  · next h => simp [h]

/-- C6: if the acquisition payload lacks an image for some guide camera,
process_acquisition skips that camera and completes successfully, and
acquisition_results gets an entry exactly for each camera whose image was
present and processed (preprocessing succeeded and PSF-like objects were
found) and no entry for any camera whose image was absent.  Confirmed
(etc.py lines 67-91), for external collaborators whose PSF stacks satisfy
the source's shape asserts. -/
theorem C6_missing_camera_skipped (ext : Ext) (s : ETCState) (payload : ExpPayload)
    (hstack : ∀ img T WT, ext.psf_stack img = some (T, WT) →
      assertHolds s.psf_pixels T WT) :
    ∃ s', process_acquisition ext s payload = .ok s' ∧
      ∃ m, s'.acquisition_results = some m ∧
        ∀ c, ((dget m c).isSome = true ↔
          (c ∈ s.guide_names ∧ ∃ d, dget payload.cameras c = some d ∧
            cameraProcessed ext c d = true)) := by
  unfold process_acquisition
  obtain ⟨s', hrun, h1, h2, h3, h4, m, hm, hcond⟩ :=
    acqLoop_ok_spec ext payload s.psf_pixels hstack s.guide_names
      { s with night := some payload.night, expid := some payload.expid
               acquisition_results := some [] } [] rfl rfl
  dsimp only
  rw [hrun]
  refine ⟨{ s' with num_guide_frames := some 0, guide_stars := none }, rfl,
    m, hm, fun c => ?_⟩
  rw [hcond c]
  simp [dget]

/-- C6 witness: three guide cameras with the GUIDE1 image absent from the
payload; the call completes and the result has entries exactly for GUIDE0
and GUIDE2. -/
theorem C6_witness :
    ∃ s', process_acquisition extW sInit3 payloadAcq3 = .ok s' ∧
      ∃ m, s'.acquisition_results = some m ∧
        ∀ c, ((dget m c).isSome = true ↔
          (c ∈ sInit3.guide_names ∧ ∃ d, dget payloadAcq3.cameras c = some d ∧
            cameraProcessed extW c d = true)) :=
  C6_missing_camera_skipped extW sInit3 payloadAcq3 (by
    intro img T WT h
    injection h with h2
    obtain ⟨hT, hW⟩ := Prod.mk.injEq .. |>.mp h2
    subst hT
    subst hW
    with_unfolding_all decide)

/-- C9: every (normally completing) call of process_acquisition
invalidates the previous exposure's per-exposure state: afterwards the
guide-star registry is cleared (guide_stars is None) and the guide-frame
counter is reset to zero, regardless of how many cameras succeeded
(etc.py lines 104-106 run unconditionally after the camera loop).
Confirmed, for external collaborators whose PSF stacks satisfy the
source's shape asserts. -/
theorem C9_acquisition_resets_guide_state (ext : Ext) (s : ETCState)
    (payload : ExpPayload)
    (hstack : ∀ img T WT, ext.psf_stack img = some (T, WT) →
      assertHolds s.psf_pixels T WT) :
    ∃ s', process_acquisition ext s payload = .ok s' ∧
      s'.guide_stars = none ∧ s'.num_guide_frames = some 0 := by
  unfold process_acquisition
  obtain ⟨s', hrun, _⟩ :=
    acqLoop_ok_spec ext payload s.psf_pixels hstack s.guide_names
      { s with night := some payload.night, expid := some payload.expid
               acquisition_results := some [] } [] rfl rfl
  dsimp only
  rw [hrun]
  exact ⟨_, rfl, rfl, rfl⟩

/-- C9 witness: the three-camera acquisition (one camera missing, the
other two succeeding) ends with guide_stars cleared and the frame counter
zero. -/
theorem C9_witness :
    ∃ s', process_acquisition extW sInit3 payloadAcq3 = .ok s' ∧
      s'.guide_stars = none ∧ s'.num_guide_frames = some 0 :=
  C9_acquisition_resets_guide_state extW sInit3 payloadAcq3 (by
    intro img T WT h
    injection h with h2
    obtain ⟨hT, hW⟩ := Prod.mk.injEq .. |>.mp h2
    subst hT
    subst hW
    with_unfolding_all decide)

end Desietc
